import Mathlib

/-!
Verification development for the itportal-mcp server.

The Go source is embedded shallowly: strings are Lean `String`s (and, at the
rune level, `List Char`), Go `int` values are `Int` or `Nat` as noted at each
definition, pointers become `Option`, and fallible operations return
`Except String`.  Concurrency (the errgroup fan-out, the atomic snapshot
pointer, the ticker goroutine) is modelled by explicit state passing: the
fetch outcomes of one build cycle are a record of `Except` values, and the
cache slot is threaded through refresh/tick events.
-/

set_option maxRecDepth 40000

namespace ITPortalMCP

/-! ### Rune-level text helpers (internal/cache/snapshot.go `truncate` support)

Go's `strings` functions operate on UTF-8 bytes, but every pattern used by
`truncate` is ASCII, so byte-level replacement and prefix tests coincide with
the rune-level (`List Char`) versions modelled here. -/

/-- Go `unicode.IsSpace` restricted to the Latin-1 white-space characters
(space, tab, newline, vertical tab, form feed, carriage return, NEL, NBSP). -/
def goIsSpace (c : Char) : Bool :=
  c == ' ' || c == '\t' || c == '\n' || c == '\x0B' || c == '\x0C' || c == '\r' ||
    c == '\u0085' || c == ' '

/-- Go `strings.TrimSpace`: drop leading and trailing white space. -/
def goTrimSpace (s : List Char) : List Char :=
  ((s.dropWhile goIsSpace).reverse.dropWhile goIsSpace).reverse

/-- The scan of Go `strings.ReplaceAll`, structurally recursive on a fuel
that bounds the number of characters still to be consumed (each step consumes
at least one, so fuel `s.length` is never exhausted). -/
def replaceAllF (pat rep : List Char) : Nat → List Char → List Char
  | _, [] => []
  | 0, s => s
  | fuel + 1, c :: rest =>
    if pat ≠ [] ∧ (c :: rest).take pat.length = pat then
      rep ++ replaceAllF pat rep fuel ((c :: rest).drop pat.length)
    else
      c :: replaceAllF pat rep fuel rest

/-- Go `strings.ReplaceAll s pat rep` for a non-empty pattern: scan left to
right, replacing non-overlapping occurrences of `pat` by `rep`. -/
def replaceAll (pat rep : List Char) (s : List Char) : List Char :=
  replaceAllF pat rep s.length s

/-- The tag-stripping loop of `truncate`: characters between `<` and `>` are
dropped, the brackets themselves are dropped, everything else is kept.  The
second argument is the `inTag` state. -/
def stripTags : List Char → Bool → List Char
  | [], _ => []
  | c :: rest, inTag =>
    if c = '<' then stripTags rest true
    else if c = '>' then stripTags rest false
    else if inTag then stripTags rest inTag
    else c :: stripTags rest inTag

/-- Helper for `goFields`: accumulate the current (reversed) field. -/
def goFieldsAux : List Char → List Char → List (List Char)
  | [], cur => if cur = [] then [] else [cur.reverse]
  | c :: rest, cur =>
    if goIsSpace c then
      if cur = [] then goFieldsAux rest [] else cur.reverse :: goFieldsAux rest []
    else
      goFieldsAux rest (c :: cur)

/-- Go `strings.Fields`: split around runs of white space, no empty fields. -/
def goFields (s : List Char) : List (List Char) :=
  goFieldsAux s []

/-- The HTML-normalisation pipeline of `truncate` before the rune cap: the
five `strings.ReplaceAll` calls, the tag-stripping loop, and
`strings.Join(strings.Fields ..., " ")`. -/
def cleanText (s : String) : List Char :=
  let t1 := replaceAll "<br>".data " ".data s.data
  let t2 := replaceAll "<br/>".data " ".data t1
  let t3 := replaceAll "<br />".data " ".data t2
  let t4 := replaceAll "</p>".data " ".data t3
  let t5 := replaceAll "</div>".data " ".data t4
  List.intercalate " ".data (goFields (stripTags t5 false))

/-- Model of `truncate` from internal/cache/snapshot.go: strip HTML, then cap the text
at `max` runes, appending the ellipsis marker when the cap is exceeded. -/
def truncate (s : String) (max : Nat) : String :=
  let clean := cleanText s
  if clean.length ≤ max then String.mk clean
  else String.mk (clean.take max ++ ['…'])

/-! ### Entity data model (itportal types.go)

Go `int` fields become `Int`, `float64` becomes `Float`, `string` stays
`String`, pointer fields become `Option`, `*bool` becomes `Option Bool`. -/

structure CompanyReference where
  id : Int
  name : String

structure SiteReference where
  id : Int
  name : String

structure ContactReference where
  id : Int
  name : String

structure DocumentReference where
  id : Int
  name : String

structure DeviceReference where
  id : Int
  name : String

structure FacilityReference where
  id : Int
  name : String

structure CabinetReference where
  id : Int
  name : String

structure IPNetworkReference where
  id : Int
  name : String

structure SwitchPortReference where
  id : Int

structure ContactEmailReference where
  id : Int
  email : String
  name : String

structure UserReference where
  id : Int
  contact : Option ContactEmailReference

structure TypeItem where
  id : Int
  name : String

structure IPRef where
  id : Int
  ip : String

structure Address where
  id : Int
  address1 : String
  address2 : String
  city : String
  state : String
  zip : String
  country : String

structure Company where
  id : Int
  parentCompany : Option CompanyReference
  name : String
  site : Option SiteReference
  address : Option Address
  startDate : String
  description : String
  abbreviation : String
  webSite : String
  status : String
  notes : String
  notesHtml : Bool
  remoteAccessNotes : String
  remoteAccessNotesHtml : Bool
  foreignID : Int
  inOut : Option Bool
  inOutNotes : String
  modified : String
  url : String

structure Site where
  id : Int
  name : String
  company : Option CompanyReference
  description : String
  contact : Option ContactReference
  diagram : Option DocumentReference
  numberOfPCs : Int
  reviewBy : Option UserReference
  dueDate : String
  address : Option Address
  foreignID : Int
  foreignType : String
  inOut : Option Bool
  inOutNotes : String
  modified : String
  url : String

structure Device where
  id : Int
  name : String
  company : Option CompanyReference
  site : Option SiteReference
  cabinet : Option CabinetReference
  facility : Option FacilityReference
  typ : Option TypeItem
  description : String
  location : String
  domain : String
  installDate : String
  warrantyExpires : String
  purchaseDate : String
  retireDate : String
  leaseEndDate : String
  manufacturer : String
  model : String
  imei : String
  serial : String
  tag : String
  numberCPU : Int
  numberCores : Int
  purchasePrice : Float
  reviewBy : Option UserReference
  dueDate : String
  foreignID : Int
  foreignType : String
  inOut : Option Bool
  inOutNotes : String
  modified : String
  url : String

structure Credential where
  id : Int
  username : String
  password : String
  description : String
  domain : String
  twoFACode : String

structure AdditionalCredential where
  id : Int
  url : String
  username : String
  password : String
  description : String

structure KBCategory where
  id : Int
  name : String

structure KB where
  id : Int
  name : String
  company : Option CompanyReference
  description : String
  uriPath : String
  isPublic : Bool
  expires : String
  category : Option KBCategory
  reviewBy : Option UserReference
  dueDate : String
  inOut : Option Bool
  inOutNotes : String
  modified : String
  url : String

structure ContactType where
  id : Int
  name : String

structure Contact where
  id : Int
  company : Option CompanyReference
  firstName : String
  middleInitial : String
  lastName : String
  typ : Option ContactType
  site : Option SiteReference
  email : String
  directNumber : String
  extensionNumber : String
  directFax : String
  homePhone : String
  mobile : String
  notes : String
  modified : String
  url : String

structure AccountType where
  id : Int
  name : String

structure Account where
  id : Int
  company : Option CompanyReference
  typ : Option AccountType
  username : String
  password : String
  twoFACode : String
  accountNumber : String
  expires : String
  description : String
  email : String
  representative : String
  accountURL : String
  techTelephone : String
  salesTelephone : String
  reviewBy : Option UserReference
  dueDate : String
  notes : String
  modified : String
  url : String

structure AgreementType where
  id : Int
  name : String

structure Agreement where
  id : Int
  company : Option CompanyReference
  typ : Option AgreementType
  description : String
  vendor : String
  site : Option SiteReference
  contact : Option ContactReference
  count : Int
  cost : Float
  dateIssued : String
  dateExpires : String
  serialNumber : String
  installDate : String
  reviewBy : Option UserReference
  dueDate : String
  foreignID : Int
  foreignType : String
  notes : String
  modified : String
  url : String

structure DocumentType where
  id : Int
  name : String

structure Document where
  id : Int
  company : Option CompanyReference
  typ : Option DocumentType
  description : String
  urlLink : String
  isPublic : Bool
  reviewBy : Option UserReference
  dueDate : String
  inOut : Option Bool
  inOutNotes : String
  modified : String
  url : String

structure IPNetwork where
  id : Int
  name : String
  company : Option CompanyReference
  description : String
  site : Option SiteReference
  network : String
  subnetMask : String
  defaultGateway : Option IPRef
  dnsServer1 : Option IPRef
  dnsServer2 : Option IPRef
  dhcpServer : Option IPRef
  vlanID : Int
  reviewBy : Option UserReference
  dueDate : String
  notes : String
  modified : String

structure FacilityType where
  id : Int
  name : String

structure Facility where
  id : Int
  name : String
  company : Option CompanyReference
  typ : Option FacilityType
  site : Option SiteReference
  description : String
  numberOfUsers : Int
  diagram : Option DocumentReference
  reviewBy : Option UserReference
  dueDate : String
  address : Option Address
  notes : String
  modified : String
  url : String

structure Cabinet where
  id : Int
  name : String
  company : Option CompanyReference
  description : String
  site : Option SiteReference
  facility : Option FacilityReference
  contact : Option ContactReference
  diagram : Option DocumentReference
  reviewBy : Option UserReference
  dueDate : String
  address : Option Address
  notes : String
  modified : String
  url : String

structure ConfigurationType where
  id : Int
  name : String

structure Configuration where
  id : Int
  name : String
  company : Option CompanyReference
  typ : Option ConfigurationType
  device : Option DeviceReference
  uriPath : String
  installDate : String
  dateExpires : String
  reviewBy : Option UserReference
  dueDate : String
  notes : String
  modified : String
  url : String

/-- The immutable point-in-time view of all documentation
(internal/cache/snapshot.go `Snapshot`).  `generatedAt` holds the formatted
generation timestamp (Go stores a `time.Time` and formats it in the
renderer; only the formatted string matters to the markdown). -/
structure Snapshot where
  generatedAt : String
  markdown : String
  companies : List Company
  sites : List Site
  devices : List Device
  kbs : List KB
  contacts : List Contact
  agreements : List Agreement
  ipNetworks : List IPNetwork
  documents : List Document
  accounts : List Account
  facilities : List Facility
  cabinets : List Cabinet
  configurations : List Configuration

/-! ### Renderer (internal/cache/snapshot.go `buildMarkdown`)

The Go function writes into one `strings.Builder`; here the same text is
produced as a concatenation of a header followed by one section per entity
kind, each section mapping a per-item renderer over its list.  Bullet lines
guarded by `!= ""` / `!= nil` / `> 0` in Go become conditional strings. -/

/-- Model of `formatAddress` from internal/cache/snapshot.go (the caller guards the
nil case, so the argument here is the dereferenced address). -/
def formatAddress (a : Address) : String :=
  let cityLine := String.mk (goTrimSpace (a.city ++ " " ++ a.state ++ " " ++ a.zip).data)
  let parts : List String :=
    (if a.address1 ≠ "" then [a.address1] else []) ++
    (if a.address2 ≠ "" then [a.address2] else []) ++
    (if cityLine ≠ "" then [cityLine] else []) ++
    (if a.country ≠ "" then [a.country] else [])
  String.intercalate ", " parts

/-- Company entry of the `## Companies` section. -/
def renderCompany (co : Company) : String :=
  "### " ++ co.name ++ " (ID: " ++ toString co.id ++ ")\n" ++
  (if co.abbreviation ≠ "" then "- **Code**: " ++ co.abbreviation ++ "\n" else "") ++
  (if co.status ≠ "" then "- **Status**: " ++ co.status ++ "\n" else "") ++
  (if co.webSite ≠ "" then "- **Website**: " ++ co.webSite ++ "\n" else "") ++
  (if co.description ≠ "" then "- **Description**: " ++ truncate co.description 300 ++ "\n" else "") ++
  (match co.address with
    | some a => "- **Address**: " ++ formatAddress a ++ "\n"
    | none => "") ++
  (if co.startDate ≠ "" then "- **Client Since**: " ++ co.startDate ++ "\n" else "") ++
  (if co.notes ≠ "" then "- **Notes**: " ++ truncate co.notes 300 ++ "\n" else "") ++
  (if co.remoteAccessNotes ≠ "" then
    "- **Remote Access Notes**: " ++ truncate co.remoteAccessNotes 300 ++ "\n" else "") ++
  (if co.url ≠ "" then "- **Portal Link**: " ++ co.url ++ "\n" else "") ++
  "\n"

/-- Site entry of the `## Sites` section. -/
def renderSite (si : Site) : String :=
  let companyCtx := match si.company with
    | some c => " — " ++ c.name
    | none => ""
  "### " ++ si.name ++ " (ID: " ++ toString si.id ++ ")" ++ companyCtx ++ "\n" ++
  (match si.company with
    | some c => "- **Company**: " ++ c.name ++ " (ID: " ++ toString c.id ++ ")\n"
    | none => "") ++
  (if si.description ≠ "" then "- **Description**: " ++ truncate si.description 300 ++ "\n" else "") ++
  (match si.address with
    | some a => "- **Address**: " ++ formatAddress a ++ "\n"
    | none => "") ++
  (match si.contact with
    | some c => "- **Main Contact**: " ++ c.name ++ " (ID: " ++ toString c.id ++ ")\n"
    | none => "") ++
  (if 0 < si.numberOfPCs then "- **Number of PCs**: " ++ toString si.numberOfPCs ++ "\n" else "") ++
  (if si.url ≠ "" then "- **Portal Link**: " ++ si.url ++ "\n" else "") ++
  "\n"

/-- Device entry of the `## Devices` section. -/
def renderDevice (d : Device) : String :=
  let locationCtx0 := match d.company with
    | some c =>
      c.name ++ (match d.site with
        | some si => " / " ++ si.name
        | none => "")
    | none => ""
  let locationCtx := if locationCtx0 ≠ "" then " — " ++ locationCtx0 else ""
  let typeName := match d.typ with
    | some t => if t.name ≠ "" then " [" ++ t.name ++ "]" else ""
    | none => ""
  let hw := String.mk (goTrimSpace (d.manufacturer ++ " " ++ d.model).data)
  "### " ++ d.name ++ " (ID: " ++ toString d.id ++ ")" ++ typeName ++ locationCtx ++ "\n" ++
  (match d.company with
    | some c => "- **Company**: " ++ c.name ++ " (ID: " ++ toString c.id ++ ")\n"
    | none => "") ++
  (match d.site with
    | some si => "- **Site**: " ++ si.name ++ " (ID: " ++ toString si.id ++ ")\n"
    | none => "") ++
  (match d.typ with
    | some t => "- **Type**: " ++ t.name ++ "\n"
    | none => "") ++
  (if hw ≠ "" then "- **Hardware**: " ++ hw ++ "\n" else "") ++
  (if d.serial ≠ "" then "- **Serial**: " ++ d.serial ++ "\n" else "") ++
  (if d.tag ≠ "" then "- **Tag**: " ++ d.tag ++ "\n" else "") ++
  (if d.imei ≠ "" then "- **IMEI**: " ++ d.imei ++ "\n" else "") ++
  (if d.description ≠ "" then "- **Description**: " ++ truncate d.description 300 ++ "\n" else "") ++
  (if d.location ≠ "" then "- **Location**: " ++ d.location ++ "\n" else "") ++
  (if d.installDate ≠ "" then "- **Install Date**: " ++ d.installDate ++ "\n" else "") ++
  (if d.warrantyExpires ≠ "" then "- **Warranty Expires**: " ++ d.warrantyExpires ++ "\n" else "") ++
  (if d.url ≠ "" then "- **Portal Link**: " ++ d.url ++ "\n" else "") ++
  "\n"

/-- Knowledge-base entry of the `## Knowledge Base Articles` section.  Note
the long-form `Content` attribute is capped at 500 runes. -/
def renderKB (kb : KB) : String :=
  let companyCtx := match kb.company with
    | some c => " — " ++ c.name
    | none => ""
  "### " ++ kb.name ++ " (ID: " ++ toString kb.id ++ ")" ++ companyCtx ++ "\n" ++
  (match kb.company with
    | some c => "- **Company**: " ++ c.name ++ " (ID: " ++ toString c.id ++ ")\n"
    | none => "") ++
  (match kb.category with
    | some c => "- **Category**: " ++ c.name ++ "\n"
    | none => "") ++
  (if kb.description ≠ "" then "- **Content**: " ++ truncate kb.description 500 ++ "\n" else "") ++
  (if kb.expires ≠ "" then "- **Expires**: " ++ kb.expires ++ "\n" else "") ++
  (if kb.modified ≠ "" then "- **Last Modified**: " ++ kb.modified ++ "\n" else "") ++
  (if kb.url ≠ "" then "- **Portal Link**: " ++ kb.url ++ "\n" else "") ++
  "\n"

/-- Contact entry of the `## Contacts` section. -/
def renderContact (co : Contact) : String :=
  let fullName0 := String.mk (goTrimSpace (co.firstName ++ " " ++ co.lastName).data)
  let fullName := if fullName0 = "" then "Contact #" ++ toString co.id else fullName0
  let companyCtx := match co.company with
    | some c => " — " ++ c.name
    | none => ""
  "### " ++ fullName ++ " (ID: " ++ toString co.id ++ ")" ++ companyCtx ++ "\n" ++
  (match co.company with
    | some c => "- **Company**: " ++ c.name ++ " (ID: " ++ toString c.id ++ ")\n"
    | none => "") ++
  (match co.typ with
    | some t => "- **Role**: " ++ t.name ++ "\n"
    | none => "") ++
  (if co.email ≠ "" then "- **Email**: " ++ co.email ++ "\n" else "") ++
  (if co.directNumber ≠ "" then "- **Direct**: " ++ co.directNumber ++ "\n" else "") ++
  (if co.mobile ≠ "" then "- **Mobile**: " ++ co.mobile ++ "\n" else "") ++
  (match co.site with
    | some si => "- **Site**: " ++ si.name ++ "\n"
    | none => "") ++
  "\n"

/-- Agreement entry of the `## Agreements` section.  Note the description is
capped at 200 runes, not 300. -/
def renderAgreement (ag : Agreement) : String :=
  let typeName := match ag.typ with
    | some t => " [" ++ t.name ++ "]"
    | none => ""
  let companyCtx := match ag.company with
    | some c => " — " ++ c.name
    | none => ""
  "### Agreement ID: " ++ toString ag.id ++ typeName ++ companyCtx ++ "\n" ++
  (match ag.company with
    | some c => "- **Company**: " ++ c.name ++ " (ID: " ++ toString c.id ++ ")\n"
    | none => "") ++
  (if ag.description ≠ "" then "- **Description**: " ++ truncate ag.description 200 ++ "\n" else "") ++
  (if ag.vendor ≠ "" then "- **Vendor**: " ++ ag.vendor ++ "\n" else "") ++
  (if ag.dateExpires ≠ "" then "- **Expires**: " ++ ag.dateExpires ++ "\n" else "") ++
  (if ag.url ≠ "" then "- **Portal Link**: " ++ ag.url ++ "\n" else "") ++
  "\n"

/-- IP-network entry of the `## IP Networks` section.  Note the notes
attribute is capped at 200 runes, not 300. -/
def renderIPNetwork (net : IPNetwork) : String :=
  let companyCtx := match net.company with
    | some c => " — " ++ c.name
    | none => ""
  "### " ++ net.name ++ " (ID: " ++ toString net.id ++ ")" ++ companyCtx ++ "\n" ++
  (match net.company with
    | some c => "- **Company**: " ++ c.name ++ " (ID: " ++ toString c.id ++ ")\n"
    | none => "") ++
  (match net.site with
    | some si => "- **Site**: " ++ si.name ++ "\n"
    | none => "") ++
  (if net.network ≠ "" ∨ net.subnetMask ≠ "" then
    "- **Network**: " ++ net.network ++ " / " ++ net.subnetMask ++ "\n" else "") ++
  (match net.defaultGateway with
    | some g => if g.ip ≠ "" then "- **Default Gateway**: " ++ g.ip ++ "\n" else ""
    | none => "") ++
  (match net.dnsServer1 with
    | some g => if g.ip ≠ "" then "- **DNS Primary**: " ++ g.ip ++ "\n" else ""
    | none => "") ++
  (match net.dnsServer2 with
    | some g => if g.ip ≠ "" then "- **DNS Secondary**: " ++ g.ip ++ "\n" else ""
    | none => "") ++
  (if 0 < net.vlanID then "- **VLAN**: " ++ toString net.vlanID ++ "\n" else "") ++
  (if net.description ≠ "" then "- **Notes**: " ++ truncate net.description 200 ++ "\n" else "") ++
  "\n"

/-- Document entry of the `## Documents` section (the heading shows the
document description). -/
def renderDocument (doc : Document) : String :=
  let companyCtx := match doc.company with
    | some c => " — " ++ c.name
    | none => ""
  let typeName := match doc.typ with
    | some t => " [" ++ t.name ++ "]"
    | none => ""
  "### " ++ doc.description ++ " (ID: " ++ toString doc.id ++ ")" ++ typeName ++ companyCtx ++ "\n" ++
  (match doc.company with
    | some c => "- **Company**: " ++ c.name ++ " (ID: " ++ toString c.id ++ ")\n"
    | none => "") ++
  (match doc.typ with
    | some t => "- **Type**: " ++ t.name ++ "\n"
    | none => "") ++
  (if doc.urlLink ≠ "" then "- **Link**: " ++ doc.urlLink ++ "\n" else "") ++
  (if doc.modified ≠ "" then "- **Last Modified**: " ++ doc.modified ++ "\n" else "") ++
  (if doc.url ≠ "" then "- **Portal Link**: " ++ doc.url ++ "\n" else "") ++
  "\n"

/-- Account entry of the `## Accounts` section.  The `password` and
`twoFACode` fields are never read. -/
def renderAccount (ac : Account) : String :=
  let companyCtx := match ac.company with
    | some c => " — " ++ c.name
    | none => ""
  let typeName := match ac.typ with
    | some t => " [" ++ t.name ++ "]"
    | none => ""
  "### Account ID: " ++ toString ac.id ++ typeName ++ companyCtx ++ "\n" ++
  (match ac.company with
    | some c => "- **Company**: " ++ c.name ++ " (ID: " ++ toString c.id ++ ")\n"
    | none => "") ++
  (match ac.typ with
    | some t => "- **Type**: " ++ t.name ++ "\n"
    | none => "") ++
  (if ac.username ≠ "" then "- **Username**: " ++ ac.username ++ "\n" else "") ++
  (if ac.accountNumber ≠ "" then "- **Account Number**: " ++ ac.accountNumber ++ "\n" else "") ++
  (if ac.email ≠ "" then "- **Email**: " ++ ac.email ++ "\n" else "") ++
  (if ac.representative ≠ "" then "- **Representative**: " ++ ac.representative ++ "\n" else "") ++
  (if ac.techTelephone ≠ "" then "- **Tech Support**: " ++ ac.techTelephone ++ "\n" else "") ++
  (if ac.salesTelephone ≠ "" then "- **Sales**: " ++ ac.salesTelephone ++ "\n" else "") ++
  (if ac.accountURL ≠ "" then "- **Account URL**: " ++ ac.accountURL ++ "\n" else "") ++
  (if ac.expires ≠ "" then "- **Expires**: " ++ ac.expires ++ "\n" else "") ++
  (if ac.description ≠ "" then "- **Description**: " ++ truncate ac.description 300 ++ "\n" else "") ++
  (if ac.notes ≠ "" then "- **Notes**: " ++ truncate ac.notes 300 ++ "\n" else "") ++
  (if ac.url ≠ "" then "- **Portal Link**: " ++ ac.url ++ "\n" else "") ++
  "\n"

/-- Facility entry of the `## Facilities` section. -/
def renderFacility (f : Facility) : String :=
  let companyCtx := match f.company with
    | some c => " — " ++ c.name
    | none => ""
  let typeName := match f.typ with
    | some t => " [" ++ t.name ++ "]"
    | none => ""
  "### " ++ f.name ++ " (ID: " ++ toString f.id ++ ")" ++ typeName ++ companyCtx ++ "\n" ++
  (match f.company with
    | some c => "- **Company**: " ++ c.name ++ " (ID: " ++ toString c.id ++ ")\n"
    | none => "") ++
  (match f.site with
    | some si => "- **Site**: " ++ si.name ++ " (ID: " ++ toString si.id ++ ")\n"
    | none => "") ++
  (match f.typ with
    | some t => "- **Type**: " ++ t.name ++ "\n"
    | none => "") ++
  (if f.description ≠ "" then "- **Description**: " ++ truncate f.description 300 ++ "\n" else "") ++
  (if 0 < f.numberOfUsers then "- **Number of Users**: " ++ toString f.numberOfUsers ++ "\n" else "") ++
  (match f.address with
    | some a => "- **Address**: " ++ formatAddress a ++ "\n"
    | none => "") ++
  (if f.notes ≠ "" then "- **Notes**: " ++ truncate f.notes 300 ++ "\n" else "") ++
  (if f.url ≠ "" then "- **Portal Link**: " ++ f.url ++ "\n" else "") ++
  "\n"

/-- Cabinet entry of the `## Cabinets` section. -/
def renderCabinet (cab : Cabinet) : String :=
  let companyCtx := match cab.company with
    | some c => " — " ++ c.name
    | none => ""
  "### " ++ cab.name ++ " (ID: " ++ toString cab.id ++ ")" ++ companyCtx ++ "\n" ++
  (match cab.company with
    | some c => "- **Company**: " ++ c.name ++ " (ID: " ++ toString c.id ++ ")\n"
    | none => "") ++
  (match cab.site with
    | some si => "- **Site**: " ++ si.name ++ " (ID: " ++ toString si.id ++ ")\n"
    | none => "") ++
  (match cab.facility with
    | some fa => "- **Facility**: " ++ fa.name ++ " (ID: " ++ toString fa.id ++ ")\n"
    | none => "") ++
  (match cab.contact with
    | some c => "- **Contact**: " ++ c.name ++ " (ID: " ++ toString c.id ++ ")\n"
    | none => "") ++
  (if cab.description ≠ "" then "- **Description**: " ++ truncate cab.description 300 ++ "\n" else "") ++
  (match cab.address with
    | some a => "- **Address**: " ++ formatAddress a ++ "\n"
    | none => "") ++
  (if cab.notes ≠ "" then "- **Notes**: " ++ truncate cab.notes 300 ++ "\n" else "") ++
  (if cab.url ≠ "" then "- **Portal Link**: " ++ cab.url ++ "\n" else "") ++
  "\n"

/-- Configuration entry of the `## Configurations` section. -/
def renderConfiguration (cfg : Configuration) : String :=
  let companyCtx := match cfg.company with
    | some c => " — " ++ c.name
    | none => ""
  let typeName := match cfg.typ with
    | some t => " [" ++ t.name ++ "]"
    | none => ""
  "### " ++ cfg.name ++ " (ID: " ++ toString cfg.id ++ ")" ++ typeName ++ companyCtx ++ "\n" ++
  (match cfg.company with
    | some c => "- **Company**: " ++ c.name ++ " (ID: " ++ toString c.id ++ ")\n"
    | none => "") ++
  (match cfg.typ with
    | some t => "- **Type**: " ++ t.name ++ "\n"
    | none => "") ++
  (match cfg.device with
    | some d => "- **Device**: " ++ d.name ++ " (ID: " ++ toString d.id ++ ")\n"
    | none => "") ++
  (if cfg.installDate ≠ "" then "- **Install Date**: " ++ cfg.installDate ++ "\n" else "") ++
  (if cfg.dateExpires ≠ "" then "- **Expires**: " ++ cfg.dateExpires ++ "\n" else "") ++
  (if cfg.notes ≠ "" then "- **Notes**: " ++ truncate cfg.notes 300 ++ "\n" else "") ++
  (if cfg.url ≠ "" then "- **Portal Link**: " ++ cfg.url ++ "\n" else "") ++
  "\n"

/-- The `**Summary:**` line of the markdown header. -/
def summaryLine (s : Snapshot) : String :=
  "**Summary:** " ++ toString s.companies.length ++ " companies · " ++
  toString s.sites.length ++ " sites · " ++
  toString s.devices.length ++ " devices · " ++
  toString s.kbs.length ++ " KB articles · " ++
  toString s.contacts.length ++ " contacts · " ++
  toString s.agreements.length ++ " agreements · " ++
  toString s.ipNetworks.length ++ " IP networks · " ++
  toString s.documents.length ++ " documents · " ++
  toString s.accounts.length ++ " accounts · " ++
  toString s.facilities.length ++ " facilities · " ++
  toString s.cabinets.length ++ " cabinets · " ++
  toString s.configurations.length ++ " configurations\n\n"

/-- Unconditional section (Companies, Sites, Devices, KBs, Contacts). -/
def sectionAlways (title : String) (render : α → String) (l : List α) : String :=
  "## " ++ title ++ " (" ++ toString l.length ++ ")\n\n" ++ String.join (l.map render)

/-- Conditional section (Agreements onwards): emitted only when non-empty. -/
def sectionIfNonEmpty (title : String) (render : α → String) (l : List α) : String :=
  if 0 < l.length then sectionAlways title render l else ""

/-- Model of `buildMarkdown` from internal/cache/snapshot.go: the full rendered
document.  The `markdown` field of the snapshot is never read. -/
def buildMarkdown (s : Snapshot) : String :=
  "# ITPortal Documentation Snapshot\n\n" ++
  "_Generated: " ++ s.generatedAt ++ " UTC_\n\n" ++
  summaryLine s ++
  "---\n\n" ++
  sectionAlways "Companies" renderCompany s.companies ++
  sectionAlways "Sites" renderSite s.sites ++
  sectionAlways "Devices" renderDevice s.devices ++
  sectionAlways "Knowledge Base Articles" renderKB s.kbs ++
  sectionAlways "Contacts" renderContact s.contacts ++
  sectionIfNonEmpty "Agreements" renderAgreement s.agreements ++
  sectionIfNonEmpty "IP Networks" renderIPNetwork s.ipNetworks ++
  sectionIfNonEmpty "Documents" renderDocument s.documents ++
  sectionIfNonEmpty "Accounts" renderAccount s.accounts ++
  sectionIfNonEmpty "Facilities" renderFacility s.facilities ++
  sectionIfNonEmpty "Cabinets" renderCabinet s.cabinets ++
  sectionIfNonEmpty "Configurations" renderConfiguration s.configurations

/-! ### Snapshot builder and cache (internal/cache/snapshot.go)

One build cycle launches twelve fetch tasks through an errgroup; their
outcomes are modelled as a record of `Except` values (the scheduling of the
goroutines is abstracted away; `firstErr` picks the error `eg.Wait` reports,
in the field order of the Go struct). -/

/-- The outcomes of the twelve per-entity-kind `ListAll*` fetch tasks of one
build cycle. -/
structure FetchResults where
  companies : Except String (List Company)
  sites : Except String (List Site)
  devices : Except String (List Device)
  kbs : Except String (List KB)
  contacts : Except String (List Contact)
  agreements : Except String (List Agreement)
  ipNetworks : Except String (List IPNetwork)
  documents : Except String (List Document)
  accounts : Except String (List Account)
  facilities : Except String (List Facility)
  cabinets : Except String (List Cabinet)
  configurations : Except String (List Configuration)

/-- The error of one fetch outcome, if any. -/
def errOf : Except String α → Option String
  | .error e => some e
  | .ok _ => none

/-- The first error among the fetch tasks (none when all succeeded). -/
def firstErr (g : FetchResults) : Option String :=
  errOf g.companies <|> errOf g.sites <|> errOf g.devices <|> errOf g.kbs <|>
  errOf g.contacts <|> errOf g.agreements <|> errOf g.ipNetworks <|> errOf g.documents <|>
  errOf g.accounts <|> errOf g.facilities <|> errOf g.cabinets <|> errOf g.configurations

/-- Model of `build` from internal/cache/snapshot.go: wait for all fetches; on any
failure return the error and no snapshot; on success assemble the snapshot,
stamp it, and render its markdown. -/
def build (g : FetchResults) (now : String) : Except String Snapshot := do
  let companies ← g.companies
  let sites ← g.sites
  let devices ← g.devices
  let kbs ← g.kbs
  let contacts ← g.contacts
  let agreements ← g.agreements
  let ipNetworks ← g.ipNetworks
  let documents ← g.documents
  let accounts ← g.accounts
  let facilities ← g.facilities
  let cabinets ← g.cabinets
  let configurations ← g.configurations
  let base : Snapshot :=
    { generatedAt := now
      markdown := ""
      companies := companies
      sites := sites
      devices := devices
      kbs := kbs
      contacts := contacts
      agreements := agreements
      ipNetworks := ipNetworks
      documents := documents
      accounts := accounts
      facilities := facilities
      cabinets := cabinets
      configurations := configurations }
  return { base with markdown := buildMarkdown base }

/-- Model of `Get` from internal/cache/snapshot.go: read the published slot.  After
`New` succeeds the slot always holds a snapshot, so the model carries a
`Snapshot`, never an empty slot. -/
def cacheGet (cur : Snapshot) : Snapshot := cur

/-- Model of `Refresh` from internal/cache/snapshot.go, as a transition on the
published slot: on build failure the slot is untouched and the error is
returned to the caller; on success the new snapshot is stored and returned. -/
def refreshStep (cur : Snapshot) (g : FetchResults) (now : String) :
    Snapshot × Except String Snapshot :=
  match build g now with
  | .error e => (cur, .error e)
  | .ok snap => (snap, .ok snap)

/-- One tick of `StartBackgroundRefresh`: a failed build is logged and the
loop continues with the slot untouched; a successful build is stored. -/
def backgroundTick (cur : Snapshot) (g : FetchResults) (now : String) : Snapshot :=
  match build g now with
  | .error _ => cur
  | .ok snap => snap

/-- The background refresh loop over a finite trace of tick inputs. -/
def backgroundLoop (cur : Snapshot) : List (FetchResults × String) → Snapshot
  | [] => cur
  | t :: ts => backgroundLoop (backgroundTick cur t.1 t.2) ts

/-- An event touching the cache slot after initialization: a manual refresh
or a background tick, each carrying the fetch outcomes of its build cycle. -/
inductive CacheEvent where
  | refreshEv (g : FetchResults) (now : String)
  | tickEv (g : FetchResults) (now : String)

/-- The slot transition of one cache event. -/
def stepCache (cur : Snapshot) : CacheEvent → Snapshot
  | .refreshEv g now => (refreshStep cur g now).1
  | .tickEv g now => backgroundTick cur g now

/-- The cache slot after a trace of refresh/tick events, starting from the
snapshot stored by `New`. -/
def runCache (init : Snapshot) (evs : List CacheEvent) : Snapshot :=
  evs.foldl stepCache init

/-- The snapshot is the result of some fully successful build. -/
def builtBy (s : Snapshot) : Prop :=
  ∃ g now, build g now = Except.ok s

/-! ### Generic paginated client (itportal client.go `listAll`)

The remote service is a function from the requested offset to a page (the
page size is always 100, so the offset determines the request).  The Go loop
carries no fuel; the fuel argument here is an upper bound on the number of
iterations, shown sufficient by the termination theorem. -/

/-- One page of a list response: the decoded items and the reported total. -/
structure Page (α : Type) where
  items : List α
  total : Int

/-- The loop of `listAll`: fetch the page at `offset`, append, advance the
offset by the number of items actually returned, and stop as soon as the
accumulated count reaches the reported total or `maxItems`, or a page comes
back empty.  Returns the accumulated items and the number of page requests
issued; `none` means the fuel ran out before the loop stopped. -/
def listAllGo (svc : Nat → Except String (Page α)) (maxItems : Int) :
    Nat → Nat → List α → Nat → Option (Except String (List α × Nat))
  | 0, _, _, _ => none
  | fuel + 1, offset, acc, pages =>
    match svc offset with
    | .error e => some (.error e)
    | .ok pg =>
      let acc2 := acc ++ pg.items
      let offset2 := offset + pg.items.length
      if pg.total ≤ (offset2 : Int) ∨ maxItems ≤ (offset2 : Int) ∨ pg.items.length = 0 then
        some (.ok (acc2, pages + 1))
      else
        listAllGo svc maxItems fuel offset2 acc2 (pages + 1)

/-- Entry point of `listAll`: run from offset 0 with fuel `maxItems.toNat + 1`, which the
termination theorem shows is never exhausted. -/
def listAll (svc : Nat → Except String (Page α)) (maxItems : Int) :
    Option (Except String (List α × Nat)) :=
  listAllGo svc maxItems (maxItems.toNat + 1) 0 [] 0

/-- The synthetic service of the pagination property: a collection declaring
total `T` whose page at `offset` returns `min 100 (T - offset)` items. -/
def synthSvc (T : Nat) : Nat → Except String (Page Nat) :=
  fun offset => .ok ⟨(List.range (min 100 (T - offset))).map (fun i => offset + i), (T : Int)⟩

/-- Item count and page-request count of `listAll` against the synthetic
service with total `T` and budget `M`. -/
def listAllStats (T M : Nat) : Option (Except String (Nat × Nat)) :=
  (listAll (synthSvc T) (M : Int)).map (fun r => r.map (fun p => (p.1.length, p.2)))

/-! ### Tool layer (mcp handlers.go `ListEntities`) -/

/-- The limit clamping at the top of `ListEntities`: a non-positive caller
limit becomes 50, a limit above 500 becomes 500; the clamped value is both
sent to the remote service (`opts.Limit`) and echoed in the result. -/
def effectiveLimit (limit : Int) : Int :=
  let l1 := if limit ≤ 0 then 50 else limit
  if 500 < l1 then 500 else l1

/-! ### Authentication middleware (cmd/server/main.go `apiKeyMiddleware`)

Headers and keys are modelled at the rune level; the `Bearer ` pattern is
ASCII, so byte-level and rune-level prefix handling coincide. -/

/-- What the middleware does with one request. -/
inductive AuthOutcome where
  | forwarded
  | unauthorized401
  | forbidden403
deriving DecidableEq

/-- The characters of the literal `Bearer ` (seven characters). -/
def bearerTag : List Char := "Bearer ".data

/-- Go `strings.HasPrefix s p`. -/
def hasPfx (s p : List Char) : Bool :=
  s.take p.length = p

/-- Go `strings.TrimPrefix s p`: drop the prefix when present, else return
`s` unchanged. -/
def trimPfx (s p : List Char) : List Char :=
  if hasPfx s p then s.drop p.length else s

/-- Model of `apiKeyMiddleware`: no `Bearer ` prefix yields 401; a mismatched token
yields 403; only the exact expected key reaches the inner MCP handler. -/
def apiKeyMiddleware (expectedKey header : List Char) : AuthOutcome :=
  if !(hasPfx header bearerTag) then .unauthorized401
  else if trimPfx header bearerTag ≠ expectedKey then .forbidden403
  else .forwarded

/-! ### Concrete instances used by witnesses and counterexamples -/

/-- A snapshot whose twelve collections are empty (markdown not yet set). -/
def emptySnapData (now : String) : Snapshot :=
  { generatedAt := now
    markdown := ""
    companies := []
    sites := []
    devices := []
    kbs := []
    contacts := []
    agreements := []
    ipNetworks := []
    documents := []
    accounts := []
    facilities := []
    cabinets := []
    configurations := [] }

/-- Fetch outcomes of a fully successful (empty) build cycle. -/
def gGood : FetchResults :=
  { companies := .ok []
    sites := .ok []
    devices := .ok []
    kbs := .ok []
    contacts := .ok []
    agreements := .ok []
    ipNetworks := .ok []
    documents := .ok []
    accounts := .ok []
    facilities := .ok []
    cabinets := .ok []
    configurations := .ok [] }

/-- Fetch outcomes of a build cycle whose sites fetch failed. -/
def gBad : FetchResults :=
  { gGood with sites := .error "list sites: boom" }

/-- The snapshot produced by the successful empty build at time `t0`. -/
def snapG : Snapshot :=
  { emptySnapData "t0" with markdown := buildMarkdown (emptySnapData "t0") }

/-- An agreement whose description is 250 `z` runes, and nothing else set. -/
def ag250 : Agreement :=
  { id := 1
    company := none
    typ := none
    description := String.mk (List.replicate 250 'z')
    vendor := ""
    site := none
    contact := none
    count := 0
    cost := 0
    dateIssued := ""
    dateExpires := ""
    serialNumber := ""
    installDate := ""
    reviewBy := none
    dueDate := ""
    foreignID := 0
    foreignType := ""
    notes := ""
    modified := ""
    url := ""}

/-- A snapshot holding only the 250-rune agreement. -/
def snapAg250 : Snapshot :=
  { emptySnapData "t0" with agreements := [ag250] }

/-- Overwrite the credential-classified fields of an account (`password` and
the second-factor code) with arbitrary values. -/
def setAccountSecrets (f g : Account → String) (a : Account) : Account :=
  { a with password := f a, twoFACode := g a }

/-! ### Helper lemmas -/

/-- Case analysis of one build cycle: either some fetch failed and `build`
returns the first error with no snapshot, or all fetches succeeded and the
snapshot holds exactly the fetched lists, the supplied timestamp, and the
markdown rendered from its own data. -/
theorem build_cases (g : FetchResults) (now : String) :
    (∃ e, firstErr g = some e ∧ build g now = Except.error e) ∨
    (firstErr g = none ∧ ∃ snap, build g now = Except.ok snap ∧
      g.companies = Except.ok snap.companies ∧ g.sites = Except.ok snap.sites ∧
      g.devices = Except.ok snap.devices ∧ g.kbs = Except.ok snap.kbs ∧
      g.contacts = Except.ok snap.contacts ∧ g.agreements = Except.ok snap.agreements ∧
      g.ipNetworks = Except.ok snap.ipNetworks ∧ g.documents = Except.ok snap.documents ∧
      g.accounts = Except.ok snap.accounts ∧ g.facilities = Except.ok snap.facilities ∧
      g.cabinets = Except.ok snap.cabinets ∧ g.configurations = Except.ok snap.configurations ∧
      snap.generatedAt = now ∧ snap.markdown = buildMarkdown { snap with markdown := "" }) := by
  obtain ⟨c, si, d, k, ct, ag, ip, doc, ac, fa, cb, cf⟩ := g
  rcases c with e | cv
  · exact Or.inl ⟨e, rfl, rfl⟩
  rcases si with e | siv
  · exact Or.inl ⟨e, rfl, rfl⟩
  rcases d with e | dv
  · exact Or.inl ⟨e, rfl, rfl⟩
  rcases k with e | kv
  · exact Or.inl ⟨e, rfl, rfl⟩
  rcases ct with e | ctv
  · exact Or.inl ⟨e, rfl, rfl⟩
  rcases ag with e | agv
  · exact Or.inl ⟨e, rfl, rfl⟩
  rcases ip with e | ipv
  · exact Or.inl ⟨e, rfl, rfl⟩
  rcases doc with e | docv
  · exact Or.inl ⟨e, rfl, rfl⟩
  rcases ac with e | acv
  · exact Or.inl ⟨e, rfl, rfl⟩
  rcases fa with e | fav
  · exact Or.inl ⟨e, rfl, rfl⟩
  rcases cb with e | cbv
  · exact Or.inl ⟨e, rfl, rfl⟩
  rcases cf with e | cfv
  · exact Or.inl ⟨e, rfl, rfl⟩
  exact Or.inr ⟨rfl, _, rfl, rfl, rfl, rfl, rfl, rfl, rfl, rfl, rfl, rfl, rfl, rfl, rfl, rfl, rfl⟩

/-- One cache event maps a successfully-built slot to a successfully-built
slot: a failed build leaves the slot alone, a successful build stores its own
result. -/
theorem builtBy_step (cur : Snapshot) (hc : builtBy cur) (ev : CacheEvent) :
    builtBy (stepCache cur ev) := by
  cases ev with
  | refreshEv g now =>
    cases hb : build g now with
    | error e => simpa [stepCache, refreshStep, hb] using hc
    | ok snap =>
      simp only [stepCache, refreshStep, hb]
      exact ⟨g, now, hb⟩
  | tickEv g now =>
    cases hb : build g now with
    | error e => simpa [stepCache, backgroundTick, hb] using hc
    | ok snap =>
      simp only [stepCache, backgroundTick, hb]
      exact ⟨g, now, hb⟩

/-- The slot invariant is preserved along any trace of cache events. -/
theorem builtBy_runCache (init : Snapshot) (evs : List CacheEvent) (h : builtBy init) :
    builtBy (runCache init evs) := by
  induction evs generalizing init with
  | nil => exact h
  | cons ev rest ih =>
    simp only [runCache, List.foldl_cons]
    exact ih _ (builtBy_step init h ev)

/-! ### Claim theorems -/

/-- C1: if any of the twelve per-entity-kind fetch tasks of a build cycle
fails, `build` returns the first error encountered and constructs no
snapshot; when it does return a snapshot, every entity kind in it comes from
its successful fetch, so no mixed snapshot is ever produced. -/
theorem c1_build_all_or_nothing (g : FetchResults) (now : String) :
    (∃ e, firstErr g = some e ∧ build g now = Except.error e) ∨
    (firstErr g = none ∧ ∃ snap, build g now = Except.ok snap ∧
      g.companies = Except.ok snap.companies ∧ g.sites = Except.ok snap.sites ∧
      g.devices = Except.ok snap.devices ∧ g.kbs = Except.ok snap.kbs ∧
      g.contacts = Except.ok snap.contacts ∧ g.agreements = Except.ok snap.agreements ∧
      g.ipNetworks = Except.ok snap.ipNetworks ∧ g.documents = Except.ok snap.documents ∧
      g.accounts = Except.ok snap.accounts ∧ g.facilities = Except.ok snap.facilities ∧
      g.cabinets = Except.ok snap.cabinets ∧ g.configurations = Except.ok snap.configurations ∧
      snap.generatedAt = now ∧ snap.markdown = buildMarkdown { snap with markdown := "" }) :=
  build_cases g now

/-- C2: when the build of a refresh attempt fails, the published slot is left
exactly as it was — the manual refresh returns the error to its caller, and a
background tick is a no-op for the slot, so the loop continues from the same
published aggregate. -/
theorem c2_failed_refresh_frame (cur : Snapshot) (g : FetchResults) (now : String)
    (ts : List (FetchResults × String)) (h : firstErr g ≠ none) :
    (refreshStep cur g now).1 = cur ∧
    (∃ e, (refreshStep cur g now).2 = Except.error e ∧ firstErr g = some e) ∧
    backgroundTick cur g now = cur ∧
    backgroundLoop cur ((g, now) :: ts) = backgroundLoop cur ts := by
  rcases build_cases g now with ⟨e, he, hb⟩ | ⟨hn, _⟩
  · refine ⟨?_, ⟨e, ?_, he⟩, ?_, ?_⟩ <;>
      simp [refreshStep, backgroundTick, backgroundLoop, hb]
  · exact absurd hn h

/-- Witness for C2 at a concrete failing build cycle. -/
theorem c2_witness :
    (refreshStep snapG gBad "t1").1 = snapG ∧
    (∃ e, (refreshStep snapG gBad "t1").2 = Except.error e ∧ firstErr gBad = some e) ∧
    backgroundTick snapG gBad "t1" = snapG ∧
    backgroundLoop snapG [(gBad, "t1")] = backgroundLoop snapG [] :=
  c2_failed_refresh_frame snapG gBad "t1" [] (by decide)

/-- C4: the rendered markdown is independent of the credential-classified
account fields (`password` and the second-factor code): overwriting them with
arbitrary values in every account leaves the renderer output unchanged, so
their literal values never reach the output. -/
theorem c4_redaction (s : Snapshot) (f g : Account → String) :
    buildMarkdown { s with accounts := s.accounts.map (setAccountSecrets f g) } =
      buildMarkdown s := by
  have hone : renderAccount ∘ setAccountSecrets f g = renderAccount :=
    funext fun a => rfl
  simp only [buildMarkdown, summaryLine, sectionAlways, sectionIfNonEmpty,
    List.length_map, List.map_map, hone]

/-- C6: the renderer is a pure function of the snapshot value: equal
snapshots render to byte-identical text however many times they are
rendered. -/
theorem c6_renderer_deterministic (s t : Snapshot) (h : s = t) :
    buildMarkdown s = buildMarkdown t ∧
      (buildMarkdown s).data = (buildMarkdown t).data :=
  ⟨congrArg buildMarkdown h, congrArg (fun x => (buildMarkdown x).data) h⟩

/-- Witness for C6 at a concrete snapshot. -/
theorem c6_witness :
    buildMarkdown snapG = buildMarkdown snapG ∧
      (buildMarkdown snapG).data = (buildMarkdown snapG).data :=
  c6_renderer_deterministic snapG snapG rfl

/-- C7: once the initial synchronous build has succeeded, after any trace of
manual refreshes and background ticks the cache slot holds a snapshot that
some fully successful build produced, and `Get` returns it directly (no
build, no network). -/
theorem c7_slot_always_built (g0 : FetchResults) (now0 : String) (init : Snapshot)
    (evs : List CacheEvent) (h : build g0 now0 = Except.ok init) :
    builtBy (runCache init evs) ∧ cacheGet (runCache init evs) = runCache init evs :=
  ⟨builtBy_runCache init evs ⟨g0, now0, h⟩, rfl⟩

/-- Witness for C7: the empty initial build followed by a failing tick. -/
theorem c7_witness :
    builtBy (runCache snapG [CacheEvent.tickEv gBad "t1"]) ∧
      cacheGet (runCache snapG [CacheEvent.tickEv gBad "t1"]) =
        runCache snapG [CacheEvent.tickEv gBad "t1"] :=
  c7_slot_always_built gGood "t0" snapG [CacheEvent.tickEv gBad "t1"] rfl

/-- C9: the `ListEntities` limit clamp sends 50 for a non-positive caller
limit, 500 for a caller limit above 500, and the caller's value otherwise,
so the effective limit always lies in 1..500. -/
theorem c9_limit_clamped (l : Int) :
    effectiveLimit l = (if l ≤ 0 then 50 else if 500 < l then 500 else l) ∧
    1 ≤ effectiveLimit l ∧ effectiveLimit l ≤ 500 := by
  unfold effectiveLimit
  by_cases h0 : l ≤ 0
  · simp [h0]
  · by_cases h5 : 500 < l <;> simp [h0, h5] <;> omega

/-- Sufficient fuel for the `listAll` loop: every continuing iteration
strictly increases the offset while the offset stays below `maxItems`, so
`(maxItems - offset).toNat` bounds the remaining iterations. -/
theorem listAllGo_isSome (svc : Nat → Except String (Page α)) (maxItems : Int) :
    ∀ fuel (offset : Nat) (acc : List α) (pages : Nat),
      (maxItems - (offset : Int)).toNat < fuel →
      (listAllGo svc maxItems fuel offset acc pages).isSome = true := by
  intro fuel
  induction fuel with
  | zero => intro offset acc pages h; exact absurd h (Nat.not_lt_zero _)
  | succ n ih =>
    intro offset acc pages h
    cases hs : svc offset with
    | error e => simp [listAllGo, hs]
    | ok pg =>
      simp only [listAllGo, hs]
      by_cases hc : pg.total ≤ ((offset + pg.items.length : Nat) : Int) ∨
          maxItems ≤ ((offset + pg.items.length : Nat) : Int) ∨ pg.items.length = 0
      · rw [if_pos hc]
        simp
      · rw [if_neg hc]
        apply ih
        push_neg at hc
        obtain ⟨-, h2, h3⟩ := hc
        omega

/-- C8: `listAll` terminates for every service behaviour, consistent or not:
run with its fuel bound it always produces a result (an error or the
accumulated items), never fuel exhaustion. -/
theorem c8_listAll_terminates (svc : Nat → Except String (Page α)) (maxItems : Int) :
    (listAll svc maxItems).isSome = true :=
  listAllGo_isSome svc maxItems (maxItems.toNat + 1) 0 [] 0 (by omega)

/-- One unfolded step of the `listAll` loop against the synthetic service,
with the stop condition restated over `Nat`. -/
theorem synth_step (T M : Nat) (n offset : Nat) (acc : List Nat) (pages : Nat) :
    listAllGo (synthSvc T) (M : Int) (n + 1) offset acc pages =
      (if T ≤ offset + min 100 (T - offset) ∨ M ≤ offset + min 100 (T - offset) ∨
          min 100 (T - offset) = 0 then
        some (Except.ok
          (acc ++ (List.range (min 100 (T - offset))).map (fun i => offset + i), pages + 1))
      else
        listAllGo (synthSvc T) (M : Int) n (offset + min 100 (T - offset))
          (acc ++ (List.range (min 100 (T - offset))).map (fun i => offset + i))
          (pages + 1)) := by
  simp only [listAllGo, synthSvc, List.length_map, List.length_range]
  exact if_congr (by omega) rfl rfl

/-- Closed form of the `listAll` loop against the synthetic service: from an
offset below both the total and the budget, the loop issues
`ceil((min T M - offset) / 100)` further page requests and accumulates whole
pages up to the first page boundary at or past `min T M`, clipped at `T`. -/
theorem synth_listAllGo (T M : Nat) :
    ∀ fuel offset (acc : List Nat) (pages : Nat), offset < T → offset < M →
      (min T M - offset + 99) / 100 ≤ fuel →
      ∃ res : List Nat,
        listAllGo (synthSvc T) (M : Int) fuel offset acc pages =
          some (Except.ok (acc ++ res, pages + (min T M - offset + 99) / 100)) ∧
        res.length = min T (offset + 100 * ((min T M - offset + 99) / 100)) - offset := by
  intro fuel
  induction fuel with
  | zero =>
    intro offset acc pages hoT hoM hf
    exact absurd hf (by omega)
  | succ n ih =>
    intro offset acc pages hoT hoM hf
    rw [synth_step]
    by_cases hstop : T ≤ offset + min 100 (T - offset) ∨ M ≤ offset + min 100 (T - offset)
    · rw [if_pos (hstop.elim Or.inl (fun h2 => Or.inr (Or.inl h2)))]
      have h1 : (min T M - offset + 99) / 100 = 1 := by omega
      refine ⟨(List.range (min 100 (T - offset))).map (fun i => offset + i), by rw [h1], ?_⟩
      rw [h1]
      simp only [List.length_map, List.length_range]
      omega
    · push_neg at hstop
      rw [if_neg (by push_neg; exact ⟨hstop.1, hstop.2, by omega⟩)]
      have h100 : min 100 (T - offset) = 100 := by omega
      obtain ⟨res2, heq2, hlen2⟩ :=
        ih (offset + min 100 (T - offset))
          (acc ++ (List.range (min 100 (T - offset))).map (fun i => offset + i))
          (pages + 1) (by omega) (by omega) (by omega)
      refine ⟨(List.range (min 100 (T - offset))).map (fun i => offset + i) ++ res2, ?_, ?_⟩
      · rw [heq2, List.append_assoc]
        have hp : pages + 1 + (min T M - (offset + min 100 (T - offset)) + 99) / 100 =
            pages + (min T M - offset + 99) / 100 := by omega
        rw [hp]
      · simp only [List.length_append, List.length_map, List.length_range] at hlen2 ⊢
        omega

/-- C3 (amended): against a consistent service with total `T ≥ 1` and a
budget `M ≥ 1`, `listAll` issues exactly `ceil(min T M / 100)` page requests
and returns `min T (100 * ceil(min T M / 100))` items — whole pages are
accumulated before the budget check, so the item count is the budget rounded
up to the next page boundary, clipped at the total. -/
theorem c3_listAll_synth (T M : Nat) (hT : 1 ≤ T) (hM : 1 ≤ M) :
    listAllStats T M =
      some (Except.ok
        (min T (100 * ((min T M + 99) / 100)), (min T M + 99) / 100)) := by
  obtain ⟨res, heq, hlen⟩ :=
    synth_listAllGo T M ((M : Int).toNat + 1) 0 [] 0 hT hM (by omega)
  have h2 : 0 + (min T M - 0 + 99) / 100 = (min T M + 99) / 100 := by omega
  rw [h2, List.nil_append] at heq
  have h1 : res.length = min T (100 * ((min T M + 99) / 100)) := by omega
  unfold listAllStats listAll
  rw [heq, Option.map_some']
  show some (Except.ok (res.length, (min T M + 99) / 100)) = _
  rw [h1]

/-- Witness for C3 at the spec's own scenario: total 250, budget 1000 gives
3 page requests and 250 items. -/
theorem c3_witness :
    listAllStats 250 1000 =
      some (Except.ok
        (min 250 (100 * ((min 250 1000 + 99) / 100)), (min 250 1000 + 99) / 100)) :=
  c3_listAll_synth 250 1000 (by decide) (by decide)

/-- Counterexample to C3 as stated: with total 250 and budget 150 the loop
returns 200 items (two whole pages), not `min 250 150 = 150` items. -/
theorem c3_counterexample :
    listAllStats 250 150 = some (Except.ok (200, 2)) ∧
      min 250 150 = 150 ∧ (200 : Nat) ≠ 150 :=
  ⟨by rfl, by decide, by decide⟩

/-- C5 (amended, truncate part): `truncate` first normalises the text
(line-break markup to spaces, HTML tags stripped, white-space runs
collapsed); if the cleaned text has at most `max` runes it is returned
whole, otherwise exactly the first `max` runes are kept and the one-rune
ellipsis marker is appended.  The cap counts `Char`s (Unicode code points),
never bytes. -/
theorem c5_truncate_cap (s : String) (max : Nat) :
    ((cleanText s).length ≤ max ∧ truncate s max = String.mk (cleanText s)) ∨
    (max < (cleanText s).length ∧ (truncate s max).data.length = max + 1 ∧
      (truncate s max).data = (cleanText s).take max ++ ['…']) := by
  by_cases h : (cleanText s).length ≤ max
  · exact Or.inl ⟨h, by simp [truncate, h]⟩
  · refine Or.inr ⟨by omega, ?_, by simp [truncate, h]⟩
    simp only [truncate, if_neg h, List.length_append, List.length_take,
      List.length_singleton]
    omega

/-- Counterexample to C5 as stated: an agreement description of 250 runes is
rendered capped at 200 runes with the marker — under the claimed 300-rune
budget no truncation would have occurred (`truncate` at 300 keeps the text
whole). -/
theorem c5_counterexample :
    (buildMarkdown snapAg250).data.count 'z' = 200 ∧
      ag250.description.data.count 'z' = 250 ∧
      truncate ag250.description 300 = ag250.description :=
  ⟨by rfl, by rfl, by rfl⟩

/-- C10: the middleware forwards a request to the MCP handler exactly when
the Authorization header is `Bearer ` followed by the configured key; it
answers 401 exactly when the `Bearer ` prefix is missing, and 403 exactly
when the prefix is present but the remaining token differs from the key. -/
theorem c10_api_key_auth (key header : List Char) :
    (apiKeyMiddleware key header = AuthOutcome.forwarded ↔ header = bearerTag ++ key) ∧
    (apiKeyMiddleware key header = AuthOutcome.unauthorized401 ↔
      hasPfx header bearerTag = false) ∧
    (apiKeyMiddleware key header = AuthOutcome.forbidden403 ↔
      (hasPfx header bearerTag = true ∧ header.drop 7 ≠ key)) := by
  have h7 : bearerTag.length = 7 := rfl
  by_cases hp : hasPfx header bearerTag
  · have ht : header.take 7 = bearerTag := by
      have := of_decide_eq_true hp
      rwa [h7] at this
    have hdr : header = bearerTag ++ header.drop 7 := by
      conv_lhs => rw [← List.take_append_drop 7 header]
      rw [ht]
    have htrim : trimPfx header bearerTag = header.drop 7 := by
      rw [trimPfx, if_pos hp, h7]
    by_cases hk : header.drop 7 = key
    · have hout : apiKeyMiddleware key header = AuthOutcome.forwarded := by
        rw [apiKeyMiddleware, hp, htrim, hk]
        simp
      refine ⟨⟨fun _ => ?_, fun _ => hout⟩, ?_, ?_⟩
      · rw [hdr, hk]
      · rw [hout]
        simp [hp]
      · rw [hout]
        simp [hk]
    · have hout : apiKeyMiddleware key header = AuthOutcome.forbidden403 := by
        rw [apiKeyMiddleware, hp, htrim]
        simp [hk]
      have hne : header ≠ bearerTag ++ key := by
        intro he
        apply hk
        rw [he, List.drop_left' h7]
      refine ⟨?_, ?_, ?_⟩
      · rw [hout]
        simp [hne]
      · rw [hout]
        simp [hp]
      · rw [hout]
        simp [hp, hk]
  · have hpf : hasPfx header bearerTag = false := by
      simpa using hp
    have hout : apiKeyMiddleware key header = AuthOutcome.unauthorized401 := by
      rw [apiKeyMiddleware, hpf]
      simp
    have hne : header ≠ bearerTag ++ key := by
      intro he
      apply hp
      rw [he]
      simp [hasPfx, List.take_left]
    refine ⟨?_, ?_, ?_⟩
    · rw [hout]
      simp [hne]
    · rw [hout]
      simp [hpf]
    · rw [hout]
      simp [hpf]

end ITPortalMCP
